import Mathlib

/-!
Verification of the localai-family-wellness backend against its
natural-language specification.

Each definition below is a shallow embedding of a Python function from the
repository (file and line references are given in the doc comments).
External effects (the HTTP tool servers, the LLM, the vector store, the
relational database) are modelled by explicit inputs: an oracle value for
each external call, and an explicit database state threaded through the
CRUD functions.  Machine reals (relevance scores) are modelled by `Int`;
UUIDs and timestamps by `Nat`; Python `None`/falsiness by `Option`.
-/

/-- Outcome of a Python call as observed by its caller: a normal return, a
raised `fastapi.HTTPException` (status code and detail string), or some
other raised Python exception (carried as its message). -/
inductive PyOutcome (α : Type) where
  | ok (a : α)
  | httpError (code : Nat) (detail : String)
  | pyExc (msg : String)
deriving DecidableEq, Repr

/-- The message of a Python `NameError` for an unresolved name `n`. -/
def pyNameErrorMsg (n : String) : String :=
  "NameError: name \x27" ++ n ++ "\x27 is not defined"

/-- Python truthiness of an optional string (None and the empty string are
falsy, every other string is truthy). -/
def pyTruthyStr : Option String → Bool
  | none => false
  | some s => s ≠ ""

/-- The Python builtins relevant to the names used by the modules
modelled here (`Enum`, `HTTPException`, `status` and `RequestStatus` are
not builtins). -/
def pyBuiltins : List String :=
  ["isinstance", "str", "len", "list", "dict", "tuple", "print", "Exception"]

/-- Python name resolution for a name used inside a function of a module:
module globals, then builtins; a name bound in neither raises a
`NameError` when evaluated. -/
def resolvesName (moduleNames : List String) (n : String) : Bool :=
  moduleNames.contains n || pyBuiltins.contains n

/-! ## Tool registry and `execute_tool` (src/backend/app/tools) -/

/-- One action entry of a tool in the registry, as produced by
`load_tools_registry` (src/backend/app/tools/registry.py lines 70-77). -/
structure ActionEntry where
  name : String
  required_params : List String
  optional_params : List String
deriving DecidableEq, Repr

/-- One tool entry of the registry (registry.py lines 62-67).  The
`actions` array has been converted to a lookup list keyed by action name. -/
structure ToolEntry where
  name : String
  server_url : String
  actions : List ActionEntry
deriving DecidableEq, Repr

/-- The loaded `_TOOLS_REGISTRY`, keyed by tool name. -/
def ToolRegistry := List ToolEntry

/-- The action-level details returned by `get_tool_details` when an action
name is supplied (registry.py lines 200-236): the action's parameter lists
together with the parent tool's `server_url`. -/
structure ActionDetails where
  server_url : String
  required_params : List String
  optional_params : List String
deriving DecidableEq, Repr

/-- `get_tool_details(tool_name, action_name)` (registry.py lines 200-236):
looks up the tool by name, then the action by name, and returns the action
details carrying the parent tool's `server_url`; `None` when either lookup
fails. -/
def get_tool_details (reg : ToolRegistry) (tool_name action_name : String) :
    Option ActionDetails :=
  match (List.find? (fun t => t.name == tool_name) reg) with
  | none => none
  | some tool =>
    match (List.find? (fun a => a.name == action_name) tool.actions) with
    | none => none
    | some act =>
      some { server_url := tool.server_url,
             required_params := act.required_params,
             optional_params := act.optional_params }

/-- Body of a tool server's HTTP response: either text that fails JSON
decoding, or a decoded JSON document (abstracted as a string). -/
inductive HttpBody where
  | invalidJson (text : String)
  | json (v : String)
deriving DecidableEq, Repr

/-- Oracle for the single outbound `httpx` POST issued by `execute_tool`:
a timeout, a network/connection error, or a response with a status code
and body. -/
inductive HttpOutcome where
  | timeout
  | requestError
  | response (statusCode : Nat) (body : HttpBody)
deriving DecidableEq, Repr

/-- Result of one run of `execute_tool`: whether an HTTP request was sent
(and with which filtered payload), and the observable outcome. -/
structure ToolCallResult where
  sentPayload : Option (List (String × String))
  outcome : PyOutcome String
deriving DecidableEq, Repr

/-- `execute_tool(tool_name, action, arguments)`
(src/backend/app/tools/client.py lines 33-152), with the single `httpx`
POST replaced by the `http` oracle.  Control flow follows the source:
registry lookup failure raises 404 (line 63), an empty/falsy `server_url`
raises 500 (line 71), missing required arguments raise 400 (line 82);
those raises happen before the `try` block and propagate unchanged.
Inside the `try` block, a response with status >= 400 triggers
`raise HTTPException(status_code=response.status_code, ...)` (line 117),
but that exception is itself an `Exception`, so it is caught by the
final `except Exception` handler (line 147) and replaced by a 500; a
timeout maps to 504 (line 128), a network error to 502 (line 135), an
invalid JSON body to 502 (line 142), and a 2xx/3xx JSON body is returned. -/
def execute_tool (reg : ToolRegistry) (tool_name action : String)
    (arguments : List (String × String)) (http : HttpOutcome) : ToolCallResult :=
  match get_tool_details reg tool_name action with
  | none =>
    { sentPayload := none,
      outcome := .httpError 404
        ("Tool \x27" ++ tool_name ++ "\x27 action \x27" ++ action ++ "\x27 not found") }
  | some details =>
    if details.server_url = "" then
      { sentPayload := none,
        outcome := .httpError 500 ("Configuration error for tool \x27" ++ tool_name ++ "\x27") }
    else
      let missing := details.required_params.filter
        (fun p => ¬ (arguments.map Prod.fst).contains p)
      if missing ≠ [] then
        { sentPayload := none,
          outcome := .httpError 400
            ("Missing required arguments for \x27" ++ tool_name ++ "." ++ action ++ "\x27: "
              ++ String.intercalate ", " missing) }
      else
        let valid_params := details.required_params ++ details.optional_params
        let filtered := arguments.filter (fun kv => valid_params.contains kv.fst)
        match http with
        | .timeout =>
          { sentPayload := some filtered,
            outcome := .httpError 504
              ("Tool \x27" ++ tool_name ++ "." ++ action ++ "\x27 execution timed out") }
        | .requestError =>
          { sentPayload := some filtered,
            outcome := .httpError 502
              ("Could not communicate with tool \x27" ++ tool_name ++ "." ++ action ++ "\x27") }
        | .response statusCode body =>
          if statusCode ≥ 400 then
            -- the HTTPException raised at client.py line 117 is caught by the
            -- blanket `except Exception` at line 147 and replaced by a 500
            { sentPayload := some filtered,
              outcome := .httpError 500
                ("Unexpected error executing tool \x27" ++ tool_name ++ "." ++ action ++ "\x27") }
          else
            match body with
            | .invalidJson _ =>
              { sentPayload := some filtered,
                outcome := .httpError 502
                  ("Invalid response format from tool \x27" ++ tool_name ++ "." ++ action ++ "\x27") }
            | .json v => { sentPayload := some filtered, outcome := .ok v }

/-! ## Circuit breaker around `execute_tool` (client.py lines 26-33)

The breaker itself comes from the third-party `circuitbreaker` library
(not part of this repository); its open/half-open/closed behaviour is
modelled from the specification's description ("a resilience wrapper that
stops issuing calls to a failing dependency after a failure threshold,
resuming after a cooldown").  The threshold and timeout constants are
taken from the source. -/

/-- `FAILURE_THRESHOLD` (client.py line 27). -/
def FAILURE_THRESHOLD : Nat := 5

/-- `RECOVERY_TIMEOUT` in seconds (client.py line 28). -/
def RECOVERY_TIMEOUT : Nat := 30

/-- State of a circuit breaker: closed with a count of consecutive
failures, or open since a given time. -/
inductive BreakerState where
  | closed (failureCount : Nat)
  | opened (openedAt : Nat)
deriving DecidableEq, Repr

/-- Success or failure of one invocation of the wrapped function. -/
inductive CallOutcome where
  | success
  | failure
deriving DecidableEq, Repr

/-- Modelled from the spec: one call through a circuit breaker with
failure threshold `thr` and recovery timeout `rt` at time `now`, where the
wrapped function (if invoked) would produce `r`.  Returns whether the
wrapped function was invoked and the next breaker state.  Closed: invoke;
a failure increments the consecutive-failure count and opens the circuit
at the threshold, a success resets it.  Open: while fewer than `rt`
seconds have elapsed the call is rejected (`CircuitBreakerError`) without
invoking the wrapped function; once `rt` seconds have elapsed a half-open
trial call is permitted, closing the circuit on success and re-opening it
on failure. -/
def breakerCall (thr rt : Nat) (st : BreakerState) (now : Nat)
    (r : CallOutcome) : Bool × BreakerState :=
  match st with
  | .closed n =>
    match r with
    | .success => (true, .closed 0)
    | .failure =>
      if n + 1 ≥ thr then (true, .opened now) else (true, .closed (n + 1))
  | .opened t =>
    if now - t < rt then (false, .opened t)
    else
      match r with
      | .success => (true, .closed 0)
      | .failure => (true, .opened now)

/-- Run a sequence of (time, wrapped-call outcome) pairs through the
breaker. -/
def breakerRun (thr rt : Nat) : BreakerState → List (Nat × CallOutcome) → BreakerState
  | st, [] => st
  | st, (now, r) :: rest => breakerRun thr rt (breakerCall thr rt st now r).2 rest

/-- `@circuit(failure_threshold=FAILURE_THRESHOLD,
recovery_timeout=RECOVERY_TIMEOUT, name="tool_execution_breaker")` applied
to `execute_tool` (client.py lines 32-33): the breaker decides whether the
wrapped `execute_tool` runs; a raised exception (any non-`ok` outcome)
counts as a failure.  Returns `none` (a `CircuitBreakerError`, no request
issued to the tool server) when the circuit rejects the call. -/
def guardedExecuteTool (st : BreakerState) (now : Nat) (reg : ToolRegistry)
    (tool_name action : String) (arguments : List (String × String))
    (http : HttpOutcome) : Option ToolCallResult × BreakerState :=
  let allowed : Bool :=
    match st with
    | .closed _ => true
    | .opened t => decide (now - t ≥ RECOVERY_TIMEOUT)
  if allowed then
    let res := execute_tool reg tool_name action arguments http
    let out : CallOutcome :=
      match res.outcome with
      | .ok _ => .success
      | _ => .failure
    (some res, (breakerCall FAILURE_THRESHOLD RECOVERY_TIMEOUT st now out).2)
  else
    (none, st)

/-! ## AI chat pipeline (src/backend/app/ai/service.py) -/

/-- The structured tool decision produced by the Instructor call
(service.py lines 45-68): one of the concrete tool-call models or
`NoToolCall`. -/
inductive ToolCallDecision where
  | getChoreStatusCall (chore_id : String)
  | scheduleScreenTimeCall (user_id date start_time end_time : String)
      (reason : Option String)
  | noToolCall
deriving DecidableEq, Repr

/-- `tool_name` literal of a decision (service.py lines 46, 50, 57). -/
def ToolCallDecision.toolName : ToolCallDecision → String
  | .getChoreStatusCall _ => "get_chore_status"
  | .scheduleScreenTimeCall _ _ _ _ _ => "schedule_screen_time_block"
  | .noToolCall => "no_tool_needed"

/-- `arguments.model_dump()` of a decision, as keyword/value pairs
(service.py lines 32-40, 170). -/
def ToolCallDecision.argumentsDump : ToolCallDecision → List (String × String)
  | .getChoreStatusCall cid => [("chore_id", cid)]
  | .scheduleScreenTimeCall uid d st et _ =>
    [("user_id", uid), ("date", d), ("start_time", st), ("end_time", et)]
  | .noToolCall => []

/-- Parameters declared by `def execute_tool(tool_name, action, arguments,
timeout=10)` (client.py line 33) that have no default value and must be
bound at every call. -/
def executeToolRequiredParams : List String := ["tool_name", "action", "arguments"]

/-- Keyword arguments supplied by the call site in
`process_chat_message_hybrid` (service.py lines 172-175):
`execute_tool(tool_name=..., arguments=...)`. -/
def chatExecuteToolKwargs : List String := ["tool_name", "arguments"]

/-- Required parameters of `execute_tool` left unbound by the call in
`process_chat_message_hybrid`. -/
def chatExecuteToolMissingParams : List String :=
  executeToolRequiredParams.filter (fun p => ¬ chatExecuteToolKwargs.contains p)

/-- The `TypeError` CPython raises when the call binding of
`execute_tool(tool_name=..., arguments=...)` fails to bind the required
parameter `action`. -/
def executeToolBindingTypeError : String :=
  "execute_tool() missing 1 required positional argument: \x27action\x27"

/-- A memory returned by `search_relevant_memories`, as consumed by the
pipeline (service.py line 120): its text and relevance score (scores are
modelled as integers). -/
structure MemorySnippet where
  text : String
  score : Int
deriving DecidableEq, Repr

/-- A raised Python exception, abstracted to its message. -/
def PyErr := String
deriving instance DecidableEq, Repr for PyErr

/-- Oracle values for the external calls made by one run of
`process_chat_message_hybrid`: the result of the vector-store search
(`search_relevant_memories` catches its own errors and returns a list),
the outcome of the Instructor structured call (which may raise or return
`None`), and the outcome of the final `litellm.acompletion` call together
with the extraction of `choices[0].message.content` (which may raise). -/
structure ChatEnv where
  memories : List MemorySnippet
  decision : Except PyErr (Option ToolCallDecision)
  llmContent : Except PyErr String
deriving Repr

/-- The observable events of one pipeline run, in order: the memory
search, the Instructor tool-selection call, the attempted `execute_tool`
invocation, the final completion call, and each `store_memory` call
(tagged with its `source` argument). -/
inductive ChatEvent where
  | searchMemories
  | toolSelection
  | executeToolCall (tool_name : String)
  | finalCompletion
  | storeMemoryCall (source : String)
deriving DecidableEq, Repr

/-- What happened at step 3 (tool execution) of the pipeline: no tool was
invoked, or the `except` branch produced the error fallback string
(service.py line 183), or the success branch produced the success string
(service.py line 177). -/
inductive ToolStepOutcome where
  | notCalled
  | errorFallback (s : String)
  | successResult (s : String)
deriving DecidableEq, Repr

/-- The string assigned to `tool_result_str` by the step-3 outcome:
`""` when no tool was invoked (service.py line 167). -/
def ToolStepOutcome.resultStr : ToolStepOutcome → String
  | .notCalled => ""
  | .errorFallback s => s
  | .successResult s => s

/-- Full observable outcome of one `process_chat_message_hybrid` run. -/
structure ChatOutcome where
  result : Except PyErr String
  trace : List ChatEvent
  toolStep : ToolStepOutcome
  finalMessages : Option (List (String × String))
deriving Repr

/-- `user_info` dictionary as used by the pipeline (service.py lines
102-104): `.get('id')`, `.get('family_id')`, `.get('name', 'User')`. -/
structure UserInfo where
  id : Option String
  family_id : Option String
  name : Option String
deriving DecidableEq, Repr

/-- The context text built from the retrieved memories (service.py line
120); the Python `:.2f` score formatting is abstracted by `toString` on
the integer score. -/
def contextText (memories : List MemorySnippet) : String :=
  if memories.isEmpty then "No specific relevant history found."
  else
    String.intercalate "\n"
      (memories.map (fun m => "- " ++ m.text ++ " (Score: " ++ toString m.score ++ ")"))

/-- `final_llm_messages` as built in service.py lines 189-204:
a system prompt with the retrieved context, an optional system message
with the formatted chat history, the user message, and - when
`tool_result_str` is non-empty - two system messages carrying the tool
result. -/
def buildFinalMessages (ctx : String) (historyFormatted : String)
    (message : String) (toolResultStr : String) : List (String × String) :=
  [("system", "You are a helpful family assistant. Relevant context:\n" ++ ctx)]
    ++ (if historyFormatted ≠ ""
        then [("system", "Previous conversation turns:\n" ++ historyFormatted)] else [])
    ++ [("user", message)]
    ++ (if toolResultStr ≠ ""
        then [("system", "Tool execution information: " ++ toolResultStr),
              ("system", "Now, provide a concise and helpful response to the user based on their original query and the tool result.")]
        else [])

/-- Formatted chat history (service.py line 191). -/
def formatHistory (chat_history : List (String × String)) : String :=
  String.intercalate "\n"
    (chat_history.map (fun p => "Human: " ++ p.1 ++ "\nAI: " ++ p.2))

/-- Python's `str.strip()`: drop whitespace from both ends (modelled
structurally over the character list so that it evaluates). -/
def pyStrip (s : String) : String :=
  ⟨((s.data.dropWhile Char.isWhitespace).reverse.dropWhile
      Char.isWhitespace).reverse⟩

/-- The fixed string returned when `user_id` or `family_id` is missing
(service.py line 108). -/
def missingInfoMsg : String :=
  "I\x27m sorry, I\x27m missing some information needed to process your request."

/-- The fixed string returned when the Instructor client is unavailable
(service.py line 112). -/
def noInstructorMsg : String :=
  "I\x27m sorry, my tool processing capability is currently unavailable."

/-- The generic apology returned by the outer `except Exception` handler
(service.py line 229). -/
def genericApologyMsg : String :=
  "I encountered an unexpected issue while processing your request. Please try again later."

/-- The `tool_result_str` produced when `execute_tool` raises
(service.py line 183); `detail` is `getattr(err, 'detail', str(err))`. -/
def toolErrorFallbackStr (tool_name detail : String) : String :=
  "Error: Could not execute tool \x27" ++ tool_name ++ "\x27. Reason: " ++ detail

/-- `process_chat_message_hybrid(pool, user_info, message, chat_history)`
(service.py lines 85-229).  Control flow follows the source:
missing `user_id`/`family_id` returns a fixed message (lines 106-108);
an unavailable Instructor client returns a fixed message (lines 110-112);
step 1 retrieves memories (`search_relevant_memories` handles its own
errors internally and cannot raise); step 2 asks Instructor for a
structured decision, falling back to `NoToolCall` when the call raises or
returns `None` (lines 147-163); step 3 invokes `execute_tool` when the
decision is a real tool call - the call site supplies only `tool_name`
and `arguments` (lines 172-175), so binding the declared parameter
`action` fails with a `TypeError`, which the `except` at line 179 turns
into the error fallback string; step 4 performs the final completion over
`final_llm_messages` (lines 189-212), any raise there being caught by the
outer handler (lines 226-229) which returns the generic apology; step 5
stores the user message, the (non-empty) AI response, and - when a tool
was chosen - a record of the tool interaction (lines 215-222;
`store_memory` handles its own errors internally and cannot raise). -/
def process_chat_message_hybrid (env : ChatEnv) (instructorAvailable : Bool)
    (user_info : UserInfo) (message : String)
    (chat_history : List (String × String)) : ChatOutcome :=
  if ¬ pyTruthyStr user_info.id ∨ ¬ pyTruthyStr user_info.family_id then
    { result := .ok missingInfoMsg, trace := [], toolStep := .notCalled,
      finalMessages := none }
  else if ¬ instructorAvailable then
    { result := .ok noInstructorMsg, trace := [], toolStep := .notCalled,
      finalMessages := none }
  else
    -- step 1: memory retrieval
    let ctx := contextText env.memories
    -- step 2: structured tool decision (falls back to NoToolCall)
    let decision : ToolCallDecision :=
      match env.decision with
      | .error _ => .noToolCall
      | .ok none => .noToolCall
      | .ok (some d) => d
    -- step 3: tool execution (only for a real tool call)
    let toolStep : ToolStepOutcome :=
      if decision = .noToolCall then .notCalled
      else
        -- `execute_tool(tool_name=..., arguments=...)`: the required
        -- parameter `action` is unbound, so the invocation raises
        -- TypeError before the tool body runs; caught at line 179.
        .errorFallback (toolErrorFallbackStr decision.toolName executeToolBindingTypeError)
    let trace3 :=
      [ChatEvent.searchMemories, ChatEvent.toolSelection]
        ++ (if decision = .noToolCall then []
            else [ChatEvent.executeToolCall decision.toolName])
    -- step 4: final conversational response
    let msgs := buildFinalMessages ctx (formatHistory chat_history) message
      toolStep.resultStr
    match env.llmContent with
    | .error _ =>
      -- caught by the outer `except Exception` (service.py lines 226-229)
      { result := .ok genericApologyMsg,
        trace := trace3 ++ [ChatEvent.finalCompletion],
        toolStep := toolStep, finalMessages := some msgs }
    | .ok content =>
      let final_ai_response := pyStrip content
      -- step 5: memory writes
      let trace5 :=
        trace3 ++ [ChatEvent.finalCompletion]
          ++ [ChatEvent.storeMemoryCall "user_chat"]
          ++ (if final_ai_response ≠ ""
              then [ChatEvent.storeMemoryCall "ai_chat"] else [])
          ++ (if decision = .noToolCall then []
              else [ChatEvent.storeMemoryCall "system_tool_interaction"])
      { result := .ok final_ai_response, trace := trace5,
        toolStep := toolStep, finalMessages := some msgs }

/-! ## Memory search (src/backend/app/ai/memory.py) -/

/-- A document returned by the vector store's
`asimilarity_search_with_relevance_scores` together with the metadata
fields the filter reads (`metadata.get("user_id")`,
`metadata.get("family_id")`); a missing key yields `none`. -/
structure StoreDoc where
  page_content : String
  meta_user_id : Option String
  meta_family_id : Option String
deriving DecidableEq, Repr

/-- A memory dictionary as returned by `search_relevant_memories`
(memory.py lines 125-129): text, the metadata fields, and the relevance
score. -/
structure MemoryHit where
  text : String
  meta_user_id : Option String
  meta_family_id : Option String
  score : Int
deriving DecidableEq, Repr

/-- Stable insertion of `x` into a list already sorted by `key`
descending: `x` is placed before the first element whose key is not
greater than `x`'s, so elements with equal keys keep their original
relative order (Python's `list.sort` is stable). -/
def insertKeyDesc {α : Type} (key : α → Int) (x : α) : List α → List α
  | [] => [x]
  | y :: ys => if key y > key x then y :: insertKeyDesc key x ys else x :: y :: ys

/-- Stable sort by `key` descending, modelling
`list.sort(key=..., reverse=True)`. -/
def sortKeyDesc {α : Type} (key : α → Int) : List α → List α
  | [] => []
  | x :: xs => insertKeyDesc key x (sortKeyDesc key xs)

/-- The filtering loop of `search_relevant_memories` (memory.py lines
112-132) over the raw store results: skip results below the optional
score threshold; keep a result only when both metadata tenant fields are
truthy and equal (as strings) to the given user and family ids; after
appending a hit, stop as soon as `k` hits have been collected. -/
def memoryFilterLoop (uid fid : String) (k : Nat) (thr : Option Int) :
    List (StoreDoc × Int) → List MemoryHit → List MemoryHit
  | [], acc => acc
  | (doc, score) :: rest, acc =>
    if (match thr with | some t => decide (score < t) | none => false) then
      memoryFilterLoop uid fid k thr rest acc
    else if pyTruthyStr doc.meta_user_id && doc.meta_user_id == some uid
        && pyTruthyStr doc.meta_family_id && doc.meta_family_id == some fid then
      let acc' := acc ++ [⟨doc.page_content, doc.meta_user_id, doc.meta_family_id, score⟩]
      if acc'.length ≥ k then acc' else memoryFilterLoop uid fid k thr rest acc'
    else
      memoryFilterLoop uid fid k thr rest acc

/-- `search_relevant_memories(query_text, user_id, family_id, k,
score_threshold)` (memory.py lines 71-142).  The store is asked for
`k * 3` results (line 108), so the raw result list handed to the filter
has at most `3 * k` entries; the filtered hits are then sorted by score
descending (line 136).  The surrounding `try`/`except` returns `[]` on
any error, so the function never raises. -/
def search_relevant_memories (results_with_scores : List (StoreDoc × Int))
    (uid fid : String) (k : Nat) (thr : Option Int) : List MemoryHit :=
  sortKeyDesc (fun h => h.score) (memoryFilterLoop uid fid k thr results_with_scores [])

/-! ## Screen-time extension requests (src/backend/app/crud/screen_time_crud.py,
src/backend/app/api/v1/screen_time.py) -/

/-- `RequestStatus` (src/backend/app/db/models/screen_time_model.py):
pending / approved / denied. -/
inductive RequestStatus where
  | pending
  | approved
  | denied
deriving DecidableEq, Repr

/-- A row of the `screen_time_extension_request` table
(screen_time_model.py, `ScreenTimeExtensionRequest`). -/
structure ExtRequest where
  id : Nat
  user_id : Nat
  rule_id : Nat
  requested_minutes : Nat
  reason : Option String
  reqStatus : RequestStatus
  responded_at : Option Nat
  responded_by_id : Option Nat
  approved_minutes : Option Nat
  response_note : Option String
  created_at : Int
  updated_at : Int
deriving DecidableEq, Repr

/-- The columns of a `user` row read by the endpoints modelled here:
primary key, family membership, and `str(role)` (the role as the string
it renders to). -/
structure UserRow where
  id : Nat
  family_id : Option Nat
  role : String
deriving DecidableEq, Repr

/-- The columns of a `screen_time_rule` row read by the endpoints
modelled here. -/
structure RuleRow where
  id : Nat
  user_id : Nat
  extension_limit_minutes : Option Nat
  can_request_extension : Bool
deriving DecidableEq, Repr

/-- The relational state the screen-time endpoints operate on. -/
structure WellnessDB where
  users : List UserRow
  rules : List RuleRow
  ext_requests : List ExtRequest
deriving DecidableEq, Repr

/-- `ScreenTimeExtensionRequestUpdate` (screen_time_schemas.py lines
128-139): the responder's status, optional approved minutes, optional
note. -/
structure ExtRequestUpdate where
  status : RequestStatus
  approved_minutes : Option Nat
  response_note : Option String
deriving DecidableEq, Repr

/-- The `model_validator` of `ScreenTimeExtensionRequestUpdate`
(screen_time_schemas.py lines 133-139): `approved_minutes` must be
present when the status is approved, and is nulled when denied. -/
def ExtRequestUpdate.validated (u : ExtRequestUpdate) : Prop :=
  (u.status = .approved → u.approved_minutes ≠ none)
    ∧ (u.status = .denied → u.approved_minutes = none)

/-- The SET clause of the conditional UPDATE in
`update_extension_request_status` (screen_time_crud.py lines 283-292)
applied to a row: new status, `responded_at = NOW()`, the responder,
`approved_minutes` only when the new status is approved (line 281), the
response note, `updated_at = NOW()`. -/
def applyExtResponse (resp : ExtRequestUpdate) (responder_id now : Nat)
    (r : ExtRequest) : ExtRequest :=
  { r with
    reqStatus := resp.status,
    responded_at := some now,
    responded_by_id := some responder_id,
    approved_minutes :=
      if resp.status = .approved then resp.approved_minutes else none,
    response_note := resp.response_note,
    updated_at := Int.ofNat now }

/-- `update_extension_request_status(db, request, response_in,
responder_id)` (screen_time_crud.py lines 271-317).  The UPDATE's WHERE
clause requires both `id = request.id` and `status = 'pending'` (line
291), so only a pending row with the matching id is modified.  When no
row matches, the code re-fetches the row and raises an HTTPException 409
(already actioned) or 404 (not found) inside the `try` block - but the
`except Exception` handler at lines 314-317 catches that very exception,
rolls the transaction back and raises HTTPException 500 instead, so the
observable outcome of the no-match case is a 500 with the transaction
rolled back (state unchanged). -/
def update_extension_request_status (db : WellnessDB) (request : ExtRequest)
    (response_in : ExtRequestUpdate) (responder_id now : Nat) :
    PyOutcome ExtRequest × WellnessDB :=
  let hit := fun (r : ExtRequest) => r.id == request.id && r.reqStatus == .pending
  let matched := db.ext_requests.filter hit
  let newRows := db.ext_requests.map
    (fun r => if hit r then applyExtResponse response_in responder_id now r else r)
  match matched with
  | [] =>
    -- inner raise of 409/404 (lines 302-310) swallowed by `except
    -- Exception` (lines 314-317): rollback, HTTPException 500
    (.httpError 500 "Error updating request", db)
  | r :: _ =>
    (.ok (applyExtResponse response_in responder_id now r),
     { db with ext_requests := newRows })

/-- The names bound at the top level of `screen_time.py` (its imports at
lines 5-36: `logging`, `typing.List/Optional`, `uuid.UUID`,
`datetime.datetime`, `psycopg`, `AsyncConnectionPool`, the fastapi names
`APIRouter`/`Depends`/`HTTPException`/`status`/`Query`, `get_db_conn`,
the two auth dependencies, the eight screen-time schemas,
`UserReadMinimal`, the `screen_time_crud` and `user_crud` modules,
`DBUser`), the module logger and router, and its endpoint functions.
There is no `from app.db.models.screen_time_model import RequestStatus`
(and no `from __future__` import of deferred annotations), although
lines 357, 361 and 383 all use the name `RequestStatus`. -/
def screenTimeApiModuleNames : List String :=
  ["logging", "List", "Optional", "UUID", "datetime", "psycopg",
   "AsyncConnectionPool", "APIRouter", "Depends", "HTTPException", "status",
   "Query", "get_db_conn", "get_current_active_user",
   "get_current_active_parent_or_admin", "ScreenTimeRuleRead",
   "ScreenTimeRuleCreate", "ScreenTimeRuleUpdate", "ScreenTimeUsageRead",
   "ScreenTimeUsageCreate", "ScreenTimeExtensionRequestRead",
   "ScreenTimeExtensionRequestCreate", "ScreenTimeExtensionRequestUpdate",
   "UserReadMinimal", "screen_time_crud", "user_crud", "DBUser", "logger",
   "router", "create_screen_time_rule_endpoint",
   "read_screen_time_rules_endpoint", "update_screen_time_rule_endpoint",
   "delete_screen_time_rule_endpoint", "log_screen_time_usage_endpoint",
   "read_screen_time_usage_endpoint", "create_extension_request_endpoint",
   "respond_extension_request_endpoint", "read_extension_requests_endpoint"]

/-- Whether `screen_time.py` can be loaded at all: defining
`read_extension_requests_endpoint` evaluates the parameter annotation
`Optional[RequestStatus]` at line 383 at module-load time (there is no
deferred-annotations future import), which requires resolving the name
`RequestStatus`. -/
def screenTimeModuleLoads : Bool :=
  resolvesName screenTimeApiModuleNames "RequestStatus"

/-- `respond_extension_request_endpoint(request_id, response_in, ...)`
(src/backend/app/api/v1/screen_time.py lines 332-377).  Control flow
follows the source: 404 when the request does not exist (line 348), 403
when the requesting user cannot be fetched or belongs to a different
family than the responder (line 354).  Then line 357
(`if request_db.status != RequestStatus.PENDING`) evaluates the name
`RequestStatus`, which `screen_time.py` never imports, so every call that
reaches this point raises `NameError` with the state untouched.  The
branch guarded by `resolvesName` reproduces what the source would do if
the name resolved: 409 when the stored status is no longer pending (line
358), 400 when the approved minutes exceed the rule's extension limit
(line 365; comparing against a `None` `approved_minutes` would raise a
TypeError, which the schema validator rules out), then the conditional
update via the CRUD function. -/
def respond_extension_request_endpoint (db : WellnessDB) (request_id : Nat)
    (response_in : ExtRequestUpdate) (current_user : UserRow) (now : Nat) :
    PyOutcome ExtRequest × WellnessDB :=
  match db.ext_requests.find? (fun r => r.id == request_id) with
  | none => (.httpError 404 "Extension request not found.", db)
  | some request_db =>
    match db.users.find? (fun u => u.id == request_db.user_id) with
    | none => (.httpError 403 "Not authorized to respond to this request.", db)
    | some requesting_user =>
      if requesting_user.family_id ≠ current_user.family_id then
        (.httpError 403 "Not authorized to respond to this request.", db)
      else if resolvesName screenTimeApiModuleNames "RequestStatus" then
        -- unreachable for this module: the intended lines 357-373
        if request_db.reqStatus ≠ .pending then
          (.httpError 409 "Request has already been actioned.", db)
        else
          let limitCheck : Option (PyOutcome ExtRequest) :=
            if response_in.status = .approved then
              match db.rules.find? (fun rl => rl.id == request_db.rule_id) with
              | some rule =>
                match rule.extension_limit_minutes with
                | some lim =>
                  match response_in.approved_minutes with
                  | some m =>
                    if m > lim then
                      some (.httpError 400
                        ("Approved minutes exceed limit (" ++ toString lim ++ ") for this rule."))
                    else none
                  | none => some (.pyExc "TypeError: unsupported comparison with None")
                | none => none
              | none => none
            else none
          match limitCheck with
          | some err => (err, db)
          | none =>
            update_extension_request_status db request_db response_in
              current_user.id now
      else
        -- line 357: NameError("RequestStatus"), propagated to the caller
        (.pyExc (pyNameErrorMsg "RequestStatus"), db)

/-- Python's `str.lower()` (modelled character-wise so that it
evaluates). -/
def pyLower (s : String) : String :=
  ⟨s.data.map Char.toLower⟩

/-- `str(current_user.role).lower() in ["parent", "admin", "caregiver"]`
(screen_time_crud.py line 343). -/
def is_parent_or_admin (roleStr : String) : Bool :=
  ["parent", "admin", "caregiver"].contains (pyLower roleStr)

/-- `get_extension_requests_multi(db, current_user, target_user_id,
status, limit)` (screen_time_crud.py lines 319-407), modelled by the
relational semantics of the SQL each branch builds: a caller without a
family id gets `[]` (line 348); a parent/admin/caregiver caller gets the
requests of the family (joined through the `user` table), optionally
restricted to `target_user_id`; every other caller gets only rows with
`user_id = current_user.id`, the `target_user_id` argument being unused
on that branch (lines 380-383); an optional status filter applies to all
branches; results are ordered by `created_at DESC` and limited. -/
def get_extension_requests_multi (db : WellnessDB) (current_user : UserRow)
    (target_user_id : Option Nat) (statusFilter : Option RequestStatus)
    (limit : Nat) : List ExtRequest :=
  match current_user.family_id with
  | none => []
  | some famId =>
    let base : List ExtRequest :=
      if is_parent_or_admin current_user.role then
        match target_user_id with
        | some t =>
          db.ext_requests.filter (fun r =>
            (db.users.any (fun u => u.id == r.user_id
              && u.family_id == some famId)) && r.user_id == t)
        | none =>
          db.ext_requests.filter (fun r =>
            db.users.any (fun u => u.id == r.user_id && u.family_id == some famId))
      else
        db.ext_requests.filter (fun r => r.user_id == current_user.id)
    let withStatus :=
      match statusFilter with
      | some st => base.filter (fun r => r.reqStatus == st)
      | none => base
    (sortKeyDesc (fun r => r.created_at) withStatus).take limit

/-! ## User and family CRUD (src/backend/app/crud/user_crud.py,
src/backend/app/crud/family_crud.py)

These two modules refer to the names `Enum`, `HTTPException` and `status`
in their bodies but never import them (their import lists are reproduced
below), so evaluating those names at call time raises a Python
`NameError`.  The embedding therefore models Python name resolution
explicitly: a name used by a function body resolves if and only if it is
bound at the module's top level or is a builtin. -/

/-- The names bound at the top level of `user_crud.py`: its imports
(lines 5-15: `logging`, `typing.Optional/List`, `uuid.UUID`, `psycopg`,
`psycopg.rows.class_row`, `pydantic.EmailStr`, the `User` model as
`DBUser` with `UserRole`, and the `UserCreate`/`UserUpdate` schemas),
the module logger, and its own function definitions.  There is no
`from enum import Enum` and no `from fastapi import HTTPException,
status`. -/
def userCrudModuleNames : List String :=
  ["logging", "Optional", "List", "UUID", "psycopg", "class_row", "EmailStr",
   "DBUser", "UserRole", "UserCreate", "UserUpdate", "logger",
   "get_user_by_id", "get_user_by_keycloak_id", "get_user_by_email",
   "get_user_by_username", "get_users_by_family", "create_user",
   "update_user", "delete_user"]

/-- The names bound at the top level of `family_crud.py`: its imports
(lines 5-19: `logging`, `secrets`, `string`, `typing.Optional/List`,
`uuid.UUID`, `psycopg`, `psycopg.rows.class_row/dict_row`, the `Family`
model as `DBFamily`, the `User` model as `DBUser`, the
`FamilyCreate`/`FamilyUpdate` schemas, `user_crud.update_user`, and
`UserUpdate`), the module logger, and its own definitions.  There is no
`from fastapi import HTTPException, status`. -/
def familyCrudModuleNames : List String :=
  ["logging", "secrets", "string", "Optional", "List", "UUID", "psycopg",
   "class_row", "dict_row", "DBFamily", "DBUser", "FamilyCreate",
   "FamilyUpdate", "update_user", "UserUpdate", "logger",
   "get_family_by_id", "get_family_by_join_code", "get_family_with_members",
   "_generate_join_code", "create_family_with_owner", "update_family"]

/-- The columns/attributes of the `User` model (`hasattr(DBUser, key)`,
from src/backend/app/db/models/user_model.py plus the `Base` columns). -/
def dbUserColumns : List String :=
  ["id", "keycloak_id", "username", "email", "first_name", "last_name",
   "role", "family_id", "parent_id", "is_active", "created_at", "updated_at"]

/-- A row of the `user` table as used by the create/update CRUD. -/
structure UserRec where
  id : Nat
  keycloak_id : String
  username : String
  email : Option String
  family_id : Option Nat
deriving DecidableEq, Repr

/-- A row of the `family` table as used by `create_family_with_owner`. -/
structure FamilyRec where
  id : Nat
  name : String
  join_code : String
deriving DecidableEq, Repr

/-- The relational state the user/family CRUD operates on, with a counter
for freshly generated primary keys. -/
structure AccountDB where
  users : List UserRec
  families : List FamilyRec
  nextId : Nat
deriving DecidableEq, Repr

/-- `UserCreate` input (user_schemas.py lines 33-37). -/
structure UserCreateIn where
  keycloak_id : String
  username : String
  email : Option String
  family_id : Option Nat
deriving DecidableEq, Repr

/-- Whether inserting `user_in` violates one of the unique constraints on
`keycloak_id`, `username` or `email` (user_model.py lines 30-34). -/
def userUniqueViolation (db : AccountDB) (user_in : UserCreateIn) : Bool :=
  db.users.any (fun u =>
    u.keycloak_id == user_in.keycloak_id || u.username == user_in.username
      || (u.email.isSome && u.email == user_in.email))

/-- `create_user(db, user_in)` (user_crud.py lines 66-115).  The first
statement inside the `try` block (line 74) evaluates
`isinstance(user_in.role, Enum)`; `Enum` is not bound in the module and
is not a builtin, so a `NameError` is raised before the INSERT executes.
It is not a `psycopg.errors.UniqueViolation`, so it falls to the
`except Exception` handler (lines 112-115), which rolls back and then
evaluates `HTTPException` - another unresolved name - so the call always
raises `NameError: name 'HTTPException' is not defined` and never inserts
a row.  The branches guarded by `resolvesName` reproduce what the source
would do if the names resolved (INSERT; UniqueViolation mapped to
HTTPException 409 after rollback). -/
def create_user (db : AccountDB) (user_in : UserCreateIn) :
    PyOutcome UserRec × AccountDB :=
  if resolvesName userCrudModuleNames "Enum" then
    -- unreachable for this module: the real line-76 INSERT and its handlers
    if userUniqueViolation db user_in then
      if resolvesName userCrudModuleNames "HTTPException" then
        (.httpError 409 "Username, email, or Keycloak ID already exists.", db)
      else (.pyExc (pyNameErrorMsg "HTTPException"), db)
    else
      let row : UserRec :=
        { id := db.nextId, keycloak_id := user_in.keycloak_id,
          username := user_in.username, email := user_in.email,
          family_id := user_in.family_id }
      (.ok row, { db with users := db.users ++ [row], nextId := db.nextId + 1 })
  else
    -- NameError("Enum") at line 74, caught by `except Exception`
    -- (line 112): rollback, then `raise HTTPException(...)` (line 115)
    if resolvesName userCrudModuleNames "HTTPException" then
      (.httpError 500 "Error creating user", db)
    else (.pyExc (pyNameErrorMsg "HTTPException"), db)

/-- `update_user(db, user, user_in)` (user_crud.py lines 120-176), with
the update payload abstracted to its field names
(`user_in.model_dump(exclude_unset=True).keys()`).  An empty payload, or
one with no `User` column among its keys, returns the user unchanged
(lines 126-128, 148-150).  Otherwise the loop at lines 134-143 evaluates
`isinstance(value, Enum)` for the first valid key; `Enum` is unresolved
and the loop is outside the `try` block, so the `NameError` propagates to
the caller before any SQL runs. -/
def update_user (db : AccountDB) (user : UserRec) (updateKeys : List String) :
    PyOutcome UserRec × AccountDB :=
  if updateKeys.isEmpty then (.ok user, db)
  else if updateKeys.all (fun k => ¬ dbUserColumns.contains k) then (.ok user, db)
  else
    if resolvesName userCrudModuleNames "Enum" then
      -- unreachable for this module: the real dynamic UPDATE (lines
      -- 152-176), with UniqueViolation mapped to 409 after rollback
      (.httpError 409 "Username or email already exists.", db)
    else
      (.pyExc (pyNameErrorMsg "Enum"), db)

/-- `FamilyCreate` input (family_schemas.py). -/
structure FamilyCreateIn where
  name : String
deriving DecidableEq, Repr

/-- `create_family_with_owner(db, family_in, owner)` (family_crud.py
lines 62-110), with the generated join code supplied as an argument.  An
owner that already has a family triggers `raise HTTPException(400)` at
line 66 - outside any `try` - but `HTTPException` is unresolved in this
module, so a `NameError` propagates.  Otherwise the family row is
inserted; a join-code collision raises UniqueViolation, whose handler
(lines 103-106) rolls back and evaluates the unresolved `HTTPException`
(NameError).  On a successful insert, line 97 calls
`user_crud.update_user` with `{family_id}` as payload, which raises
`NameError("Enum")` (see `update_user`); the `except Exception` handler
(lines 107-110) rolls the insert back and again evaluates the unresolved
`HTTPException`.  Every path therefore raises
`NameError: name 'HTTPException' is not defined` with the state rolled
back. -/
def create_family_with_owner (db : AccountDB) (family_in : FamilyCreateIn)
    (owner : UserRec) (join_code : String) : PyOutcome FamilyRec × AccountDB :=
  if owner.family_id.isSome then
    -- line 66: raise HTTPException(400, "User already belongs to a family")
    if resolvesName familyCrudModuleNames "HTTPException" then
      (.httpError 400 "User already belongs to a family", db)
    else (.pyExc (pyNameErrorMsg "HTTPException"), db)
  else if db.families.any (fun f => f.join_code == join_code) then
    -- UniqueViolation on join_code: rollback, then the unresolved
    -- `raise HTTPException(409, ...)` at line 106
    if resolvesName familyCrudModuleNames "HTTPException" then
      (.httpError 409 "Could not generate unique join code, please try again.", db)
    else (.pyExc (pyNameErrorMsg "HTTPException"), db)
  else
    let fam : FamilyRec :=
      { id := db.nextId, name := family_in.name, join_code := join_code }
    let db1 : AccountDB :=
      { db with families := db.families ++ [fam], nextId := db.nextId + 1 }
    match update_user db1 owner ["family_id"] with
    | (.ok _, db2) => (.ok fam, db2)
    | _ =>
      -- any exception from update_user reaches `except Exception`
      -- (line 107): rollback (undoing the insert), then the unresolved
      -- `raise HTTPException(500, ...)` at line 110
      if resolvesName familyCrudModuleNames "HTTPException" then
        (.httpError 500 "Error creating family", db)
      else (.pyExc (pyNameErrorMsg "HTTPException"), db)

/-! ## Theorems -/

/-- C3: execute_tool maps failures to HTTP status codes: 404 for an
unknown (tool, action) pair, 400 for missing required arguments, 504 for
a timeout, 502 for a network error or an invalid JSON body, and returns
the parsed body on success.  However, when the tool server itself
responds with a status code of 400 or greater, the HTTPException raised
with that code at client.py line 117 is caught by the blanket
`except Exception` at line 147, so `execute_tool` raises 500 instead of
propagating the server's status code - contradicting both the claim and
the function's own docstring ("Other status codes (>=400) as propagated
from the tool server itself").  The last two conjuncts exhibit the
divergence at a server response with status 403. -/
theorem c3_execute_tool_status_mapping :
    let reg : ToolRegistry :=
      [{ name := "chore_tool", server_url := "http://chore-tool:8001",
         actions := [{ name := "get_chore_status",
                       required_params := ["chore_id"], optional_params := [] }] }]
    ((execute_tool reg "chore_tool" "unknown_action" [("chore_id", "c1")]
        (.response 200 (.json "ok"))).outcome
      = .httpError 404 "Tool \x27chore_tool\x27 action \x27unknown_action\x27 not found")
    ∧ ((execute_tool reg "chore_tool" "get_chore_status" []
        (.response 200 (.json "ok"))).outcome
      = .httpError 400 "Missing required arguments for \x27chore_tool.get_chore_status\x27: chore_id")
    ∧ ((execute_tool reg "chore_tool" "get_chore_status" [("chore_id", "c1")]
        .timeout).outcome
      = .httpError 504 "Tool \x27chore_tool.get_chore_status\x27 execution timed out")
    ∧ ((execute_tool reg "chore_tool" "get_chore_status" [("chore_id", "c1")]
        .requestError).outcome
      = .httpError 502 "Could not communicate with tool \x27chore_tool.get_chore_status\x27")
    ∧ ((execute_tool reg "chore_tool" "get_chore_status" [("chore_id", "c1")]
        (.response 200 (.invalidJson "<html>"))).outcome
      = .httpError 502 "Invalid response format from tool \x27chore_tool.get_chore_status\x27")
    ∧ ((execute_tool reg "chore_tool" "get_chore_status" [("chore_id", "c1")]
        (.response 200 (.json "result"))).outcome = .ok "result")
    ∧ ((execute_tool reg "chore_tool" "get_chore_status" [("chore_id", "c1")]
        (.response 403 (.json "forbidden"))).outcome
      = .httpError 500 "Unexpected error executing tool \x27chore_tool.get_chore_status\x27")
    ∧ (∀ d : String,
        (execute_tool reg "chore_tool" "get_chore_status" [("chore_id", "c1")]
          (.response 403 (.json "forbidden"))).outcome ≠ .httpError 403 d) := by
  refine ⟨rfl, rfl, rfl, rfl, rfl, rfl, rfl, ?_⟩
  intro d h
  simp [execute_tool, get_tool_details] at h

/-- C7: `execute_tool` is wrapped in a circuit breaker with failure
threshold `FAILURE_THRESHOLD = 5` and recovery timeout
`RECOVERY_TIMEOUT = 30` seconds: five consecutive failures starting from
the closed state open the circuit at the time of the fifth failure; while
the circuit is open and fewer than 30 seconds have elapsed, a call
returns a CircuitBreakerError (`none`) without invoking `execute_tool`
and without issuing any request to the tool server; once at least 30
seconds have elapsed, a half-open trial call is permitted and the wrapped
`execute_tool` runs. -/
theorem c7_circuit_breaker_wrapping :
    (FAILURE_THRESHOLD = 5 ∧ RECOVERY_TIMEOUT = 30)
    ∧ (∀ t1 t2 t3 t4 t5 : Nat,
        breakerRun FAILURE_THRESHOLD RECOVERY_TIMEOUT (.closed 0)
          [(t1, .failure), (t2, .failure), (t3, .failure),
           (t4, .failure), (t5, .failure)]
          = .opened t5)
    ∧ (∀ (t now : Nat) (reg : ToolRegistry) (tool action : String)
         (args : List (String × String)) (http : HttpOutcome),
        now - t < RECOVERY_TIMEOUT →
        guardedExecuteTool (.opened t) now reg tool action args http
          = (none, .opened t))
    ∧ (∀ (t now : Nat) (reg : ToolRegistry) (tool action : String)
         (args : List (String × String)) (http : HttpOutcome),
        now - t ≥ RECOVERY_TIMEOUT →
        (guardedExecuteTool (.opened t) now reg tool action args http).1
          = some (execute_tool reg tool action args http)) := by
  refine ⟨⟨rfl, rfl⟩, ?_, ?_, ?_⟩
  · intro t1 t2 t3 t4 t5
    simp [breakerRun, breakerCall, FAILURE_THRESHOLD]
  · intro t now reg tool action args http h
    have hn : ¬ (now - t ≥ RECOVERY_TIMEOUT) := Nat.not_le.mpr h
    simp [guardedExecuteTool, hn]
  · intro t now reg tool action args http h
    simp [guardedExecuteTool, h]

/-- C7 witness: with the circuit opened at time 0, a call at time 10 is
rejected without any invocation, and a call at time 40 invokes the
wrapped `execute_tool`. -/
theorem c7_circuit_breaker_wrapping_witness :
    guardedExecuteTool (.opened 0) 10 ([] : ToolRegistry) "chore_tool"
        "get_chore_status" [] .timeout = (none, .opened 0)
    ∧ (guardedExecuteTool (.opened 0) 40 ([] : ToolRegistry) "chore_tool"
        "get_chore_status" [] .timeout).1
      = some (execute_tool ([] : ToolRegistry) "chore_tool"
          "get_chore_status" [] .timeout) :=
  ⟨c7_circuit_breaker_wrapping.2.2.1 0 10 ([] : ToolRegistry) "chore_tool"
      "get_chore_status" [] .timeout (by decide),
   c7_circuit_breaker_wrapping.2.2.2 0 40 ([] : ToolRegistry) "chore_tool"
      "get_chore_status" [] .timeout (by decide)⟩

/-- Helper: the tool error fallback string is never empty. -/
theorem toolErrorFallbackStr_ne_empty (n d : String) :
    toolErrorFallbackStr n d ≠ "" := by
  intro h
  have hl := congrArg String.length h
  simp only [toolErrorFallbackStr, String.length_append] at hl
  rw [show ("" : String).length = 0 from rfl] at hl
  have h0 : ("Error: Could not execute tool \x27" : String).length = 0 := by omega
  exact absurd h0 (by decide)

/-- C2: the chat pipeline's call to `execute_tool` supplies only the
`tool_name` and `arguments` keywords while `execute_tool` also declares
the required parameter `action`; binding therefore always fails with a
TypeError, the `except` handler turns it into the
"Error: Could not execute tool ..." fallback string, and the tool step of
the pipeline never produces a successful tool result. -/
theorem c2_chat_tool_call_missing_action :
    (chatExecuteToolMissingParams = ["action"]
      ∧ executeToolRequiredParams.contains "action" = true
      ∧ chatExecuteToolKwargs.contains "action" = false)
    ∧ (∀ (env : ChatEnv) (ui : UserInfo) (msg : String)
         (hist : List (String × String)) (d : ToolCallDecision),
        pyTruthyStr ui.id = true → pyTruthyStr ui.family_id = true →
        env.decision = .ok (some d) → d ≠ .noToolCall →
        (process_chat_message_hybrid env true ui msg hist).toolStep
            = .errorFallback
                (toolErrorFallbackStr d.toolName executeToolBindingTypeError)
          ∧ ∀ s, (process_chat_message_hybrid env true ui msg hist).toolStep
              ≠ .successResult s) := by
  refine ⟨⟨rfl, rfl, rfl⟩, ?_⟩
  intro env ui msg hist d h1 h2 hdec hd
  cases hllm : env.llmContent <;>
    simp [process_chat_message_hybrid, h1, h2, hdec, hd, hllm]

/-- C2 witness: a concrete run whose decision is a real
`get_chore_status` call produces the error fallback at the tool step. -/
theorem c2_chat_tool_call_missing_action_witness :
    (process_chat_message_hybrid
        ⟨[], .ok (some (.getChoreStatusCall "c1")), .ok "Sure!"⟩ true
        ⟨some "u1", some "f1", none⟩ "check my chore" []).toolStep
      = .errorFallback
          (toolErrorFallbackStr "get_chore_status" executeToolBindingTypeError)
    ∧ ∀ s, (process_chat_message_hybrid
        ⟨[], .ok (some (.getChoreStatusCall "c1")), .ok "Sure!"⟩ true
        ⟨some "u1", some "f1", none⟩ "check my chore" []).toolStep
      ≠ .successResult s :=
  c2_chat_tool_call_missing_action.2
    ⟨[], .ok (some (.getChoreStatusCall "c1")), .ok "Sure!"⟩
    ⟨some "u1", some "f1", none⟩ "check my chore" []
    (.getChoreStatusCall "c1") (by decide) (by decide) rfl (by decide)

/-- C5: on the success path (ids present, Instructor available, a
structured decision returned, the final completion succeeding with a
non-empty stripped text), the pipeline performs memory retrieval, then
the tool decision, then - only for a real tool call - the `execute_tool`
invocation, then the final completion, then the memory writes for the
user message, the AI response, and - when a tool was chosen - the tool
interaction record, in that order, and returns the final completion
text. -/
theorem c5_pipeline_step_order (env : ChatEnv) (ui : UserInfo) (msg : String)
    (hist : List (String × String)) (d : ToolCallDecision) (content : String)
    (h1 : pyTruthyStr ui.id = true) (h2 : pyTruthyStr ui.family_id = true)
    (hdec : env.decision = .ok (some d)) (hllm : env.llmContent = .ok content)
    (hne : pyStrip content ≠ "") :
    (process_chat_message_hybrid env true ui msg hist).result
      = .ok (pyStrip content)
    ∧ (process_chat_message_hybrid env true ui msg hist).trace
      = [ChatEvent.searchMemories, ChatEvent.toolSelection]
        ++ (if d = .noToolCall then []
            else [ChatEvent.executeToolCall d.toolName])
        ++ [ChatEvent.finalCompletion,
            ChatEvent.storeMemoryCall "user_chat",
            ChatEvent.storeMemoryCall "ai_chat"]
        ++ (if d = .noToolCall then []
            else [ChatEvent.storeMemoryCall "system_tool_interaction"]) := by
  constructor
  · simp [process_chat_message_hybrid, h1, h2, hdec, hllm]
  · by_cases hd : d = .noToolCall <;>
      simp [process_chat_message_hybrid, h1, h2, hdec, hllm, hd, hne]

/-- C5 witness: a concrete success-path run with a real tool call. -/
theorem c5_pipeline_step_order_witness :
    (process_chat_message_hybrid
        ⟨[], .ok (some (.getChoreStatusCall "c1")), .ok "All done!"⟩ true
        ⟨some "u1", some "f1", some "Ada"⟩ "is my chore done" []).result
      = .ok (pyStrip "All done!")
    ∧ (process_chat_message_hybrid
        ⟨[], .ok (some (.getChoreStatusCall "c1")), .ok "All done!"⟩ true
        ⟨some "u1", some "f1", some "Ada"⟩ "is my chore done" []).trace
      = [ChatEvent.searchMemories, ChatEvent.toolSelection]
        ++ (if (ToolCallDecision.getChoreStatusCall "c1") = .noToolCall then []
            else [ChatEvent.executeToolCall
                    (ToolCallDecision.getChoreStatusCall "c1").toolName])
        ++ [ChatEvent.finalCompletion,
            ChatEvent.storeMemoryCall "user_chat",
            ChatEvent.storeMemoryCall "ai_chat"]
        ++ (if (ToolCallDecision.getChoreStatusCall "c1") = .noToolCall then []
            else [ChatEvent.storeMemoryCall "system_tool_interaction"]) :=
  c5_pipeline_step_order
    ⟨[], .ok (some (.getChoreStatusCall "c1")), .ok "All done!"⟩
    ⟨some "u1", some "f1", some "Ada"⟩ "is my chore done" []
    (.getChoreStatusCall "c1") "All done!"
    (by decide) (by decide) rfl rfl (by decide)

/-- C6: the pipeline never propagates an exception: every run returns a
string; a missing `user_id` or `family_id` yields the fixed
missing-information message, an unavailable Instructor client yields the
fixed unavailable message, and a raising final completion is caught by
the outer handler which yields the fixed generic apology. -/
theorem c6_pipeline_never_raises (env : ChatEnv) (avail : Bool) (ui : UserInfo)
    (msg : String) (hist : List (String × String)) :
    (∃ s, (process_chat_message_hybrid env avail ui msg hist).result = .ok s)
    ∧ (¬ pyTruthyStr ui.id = true ∨ ¬ pyTruthyStr ui.family_id = true →
        (process_chat_message_hybrid env avail ui msg hist).result
          = .ok missingInfoMsg)
    ∧ (pyTruthyStr ui.id = true → pyTruthyStr ui.family_id = true →
        avail = false →
        (process_chat_message_hybrid env avail ui msg hist).result
          = .ok noInstructorMsg)
    ∧ (pyTruthyStr ui.id = true → pyTruthyStr ui.family_id = true →
        avail = true → ∀ e, env.llmContent = .error e →
        (process_chat_message_hybrid env avail ui msg hist).result
          = .ok genericApologyMsg) := by
  refine ⟨?_, ?_, ?_, ?_⟩
  · by_cases h1 : pyTruthyStr ui.id = true
    · by_cases h2 : pyTruthyStr ui.family_id = true
      · cases avail with
        | false =>
          exact ⟨noInstructorMsg, by simp [process_chat_message_hybrid, h1, h2]⟩
        | true =>
          cases hllm : env.llmContent with
          | error e =>
            exact ⟨genericApologyMsg,
              by simp [process_chat_message_hybrid, h1, h2, hllm]⟩
          | ok c =>
            exact ⟨pyStrip c,
              by simp [process_chat_message_hybrid, h1, h2, hllm]⟩
      · exact ⟨missingInfoMsg, by simp [process_chat_message_hybrid, h2]⟩
    · exact ⟨missingInfoMsg, by simp [process_chat_message_hybrid, h1]⟩
  · intro h
    rcases h with h | h <;> simp [process_chat_message_hybrid, h]
  · intro h1 h2 hav
    subst hav
    simp [process_chat_message_hybrid, h1, h2]
  · intro h1 h2 hav e hllm
    subst hav
    simp [process_chat_message_hybrid, h1, h2, hllm]

/-- C6 witness: a run with `family_id` missing from `user_info` returns
the fixed missing-information message. -/
theorem c6_pipeline_never_raises_witness :
    (process_chat_message_hybrid ⟨[], .ok none, .ok "hi"⟩ true
        ⟨some "u1", none, none⟩ "hello" []).result = .ok missingInfoMsg :=
  (c6_pipeline_never_raises ⟨[], .ok none, .ok "hi"⟩ true
      ⟨some "u1", none, none⟩ "hello" []).2.1 (Or.inr (by decide))

/-- C8: the tool edge cases never abort the pipeline: when the structured
tool-selection call raises or returns `None`, the decision falls back to
`NoToolCall`, no `execute_tool` invocation happens, and the final
completion still runs; when a chosen tool's execution raises, the
exception is replaced by an error string that is included as a system
message in the final prompt, and the final completion still runs. -/
theorem c8_tool_edge_cases_fallbacks (env : ChatEnv) (ui : UserInfo)
    (msg : String) (hist : List (String × String))
    (h1 : pyTruthyStr ui.id = true) (h2 : pyTruthyStr ui.family_id = true) :
    (((∃ e, env.decision = .error e) ∨ env.decision = .ok none) →
      (process_chat_message_hybrid env true ui msg hist).toolStep = .notCalled
      ∧ (∀ n, ChatEvent.executeToolCall n
          ∉ (process_chat_message_hybrid env true ui msg hist).trace)
      ∧ ChatEvent.finalCompletion
          ∈ (process_chat_message_hybrid env true ui msg hist).trace)
    ∧ (∀ d, env.decision = .ok (some d) → d ≠ .noToolCall →
        ∃ errStr msgs,
          (process_chat_message_hybrid env true ui msg hist).toolStep
            = .errorFallback errStr
          ∧ (process_chat_message_hybrid env true ui msg hist).finalMessages
            = some msgs
          ∧ ("system", "Tool execution information: " ++ errStr) ∈ msgs
          ∧ ChatEvent.finalCompletion
            ∈ (process_chat_message_hybrid env true ui msg hist).trace) := by
  constructor
  · intro hcase
    cases hdec : env.decision with
    | error e =>
      cases hllm : env.llmContent <;>
        simp [process_chat_message_hybrid, h1, h2, hdec, hllm]
    | ok o =>
      cases o with
      | none =>
        cases hllm : env.llmContent <;>
          simp [process_chat_message_hybrid, h1, h2, hdec, hllm]
      | some d =>
        exfalso
        rcases hcase with ⟨e, he⟩ | he <;> rw [hdec] at he <;> simp at he
  · intro d hdec hd
    refine ⟨toolErrorFallbackStr d.toolName executeToolBindingTypeError,
      buildFinalMessages (contextText env.memories) (formatHistory hist) msg
        (toolErrorFallbackStr d.toolName executeToolBindingTypeError), ?_⟩
    have hne := toolErrorFallbackStr_ne_empty d.toolName executeToolBindingTypeError
    cases hllm : env.llmContent with
    | error e =>
      refine ⟨?_, ?_, ?_, ?_⟩ <;>
        simp [process_chat_message_hybrid, h1, h2, hdec, hd, hllm,
          buildFinalMessages, ToolStepOutcome.resultStr, hne]
    | ok c =>
      refine ⟨?_, ?_, ?_, ?_⟩ <;>
        simp [process_chat_message_hybrid, h1, h2, hdec, hd, hllm,
          buildFinalMessages, ToolStepOutcome.resultStr, hne]

/-- C8 witness: a run whose tool-selection call raises falls back to no
tool and still reaches the final completion. -/
theorem c8_tool_edge_cases_fallbacks_witness :
    (process_chat_message_hybrid ⟨[], .error "instructor failed", .ok "ok"⟩
        true ⟨some "u1", some "f1", none⟩ "hi" []).toolStep = .notCalled
    ∧ (∀ n, ChatEvent.executeToolCall n
        ∉ (process_chat_message_hybrid ⟨[], .error "instructor failed", .ok "ok"⟩
            true ⟨some "u1", some "f1", none⟩ "hi" []).trace)
    ∧ ChatEvent.finalCompletion
        ∈ (process_chat_message_hybrid ⟨[], .error "instructor failed", .ok "ok"⟩
            true ⟨some "u1", some "f1", none⟩ "hi" []).trace :=
  (c8_tool_edge_cases_fallbacks ⟨[], .error "instructor failed", .ok "ok"⟩
      ⟨some "u1", some "f1", none⟩ "hi" [] (by decide) (by decide)).1
    (Or.inl ⟨"instructor failed", rfl⟩)

/-- Helper: membership in a stable descending insertion. -/
theorem mem_insertKeyDesc {α : Type} (key : α → Int) (x : α) (l : List α)
    (a : α) : a ∈ insertKeyDesc key x l ↔ a = x ∨ a ∈ l := by
  induction l with
  | nil => simp [insertKeyDesc]
  | cons y ys ih =>
    simp only [insertKeyDesc]
    split
    · simp only [List.mem_cons, ih]
      tauto
    · simp [List.mem_cons]

/-- Helper: membership in the stable descending sort. -/
theorem mem_sortKeyDesc {α : Type} (key : α → Int) (l : List α) (a : α) :
    a ∈ sortKeyDesc key l ↔ a ∈ l := by
  induction l with
  | nil => simp [sortKeyDesc]
  | cons x xs ih =>
    simp [sortKeyDesc, mem_insertKeyDesc, ih]

/-- Helper: inserting preserves length (plus one). -/
theorem length_insertKeyDesc {α : Type} (key : α → Int) (x : α) (l : List α) :
    (insertKeyDesc key x l).length = l.length + 1 := by
  induction l with
  | nil => simp [insertKeyDesc]
  | cons y ys ih =>
    simp only [insertKeyDesc]
    split <;> simp [ih]

/-- Helper: the sort preserves length. -/
theorem length_sortKeyDesc {α : Type} (key : α → Int) (l : List α) :
    (sortKeyDesc key l).length = l.length := by
  induction l with
  | nil => rfl
  | cons x xs ih => simp [sortKeyDesc, length_insertKeyDesc, ih]

/-- Helper: inserting into a descending-sorted list keeps it sorted. -/
theorem pairwise_insertKeyDesc {α : Type} (key : α → Int) (x : α) (l : List α)
    (h : List.Pairwise (fun a b => key b ≤ key a) l) :
    List.Pairwise (fun a b => key b ≤ key a) (insertKeyDesc key x l) := by
  induction l with
  | nil => simp [insertKeyDesc]
  | cons y ys ih =>
    rw [List.pairwise_cons] at h
    obtain ⟨hy, hys⟩ := h
    simp only [insertKeyDesc]
    split
    case isTrue hgt =>
      refine List.Pairwise.cons ?_ (ih hys)
      intro b hb
      rcases (mem_insertKeyDesc key x ys b).1 hb with rfl | hb
      · exact le_of_lt hgt
      · exact hy b hb
    case isFalse hle =>
      refine List.Pairwise.cons ?_ (List.Pairwise.cons hy hys)
      intro b hb
      rcases List.mem_cons.1 hb with rfl | hb
      · exact not_lt.mp hle
      · exact le_trans (hy b hb) (not_lt.mp hle)

/-- Helper: the stable descending sort produces a list sorted by key
descending. -/
theorem pairwise_sortKeyDesc {α : Type} (key : α → Int) (l : List α) :
    List.Pairwise (fun a b => key b ≤ key a) (sortKeyDesc key l) := by
  induction l with
  | nil => simp [sortKeyDesc]
  | cons x xs ih => exact pairwise_insertKeyDesc key x _ ih

/-- Helper: every element produced by the filter loop either was already
accumulated or carries exactly the requested tenant fields. -/
theorem mem_memoryFilterLoop (uid fid : String) (k : Nat) (thr : Option Int)
    (results : List (StoreDoc × Int)) :
    ∀ (acc : List MemoryHit) (a : MemoryHit),
      a ∈ memoryFilterLoop uid fid k thr results acc →
      a ∈ acc ∨ (a.meta_user_id = some uid ∧ a.meta_family_id = some fid) := by
  induction results with
  | nil =>
    intro acc a ha
    exact Or.inl ha
  | cons p rest ih =>
    intro acc a ha
    obtain ⟨doc, score⟩ := p
    simp only [memoryFilterLoop] at ha
    split at ha
    · exact ih acc a ha
    · split at ha
      case isTrue hguard =>
        simp only [Bool.and_eq_true, beq_iff_eq] at hguard
        have hhit : (⟨doc.page_content, doc.meta_user_id,
            doc.meta_family_id, score⟩ : MemoryHit).meta_user_id = some uid
            ∧ (⟨doc.page_content, doc.meta_user_id,
                doc.meta_family_id, score⟩ : MemoryHit).meta_family_id = some fid := by
          exact ⟨hguard.1.1.2, hguard.2⟩
        split at ha
        · rcases List.mem_append.1 ha with h | h
          · exact Or.inl h
          · right
            rcases List.mem_singleton.1 h with rfl
            exact hhit
        · rcases ih _ a ha with h | h
          · rcases List.mem_append.1 h with h | h
            · exact Or.inl h
            · right
              rcases List.mem_singleton.1 h with rfl
              exact hhit
          · exact Or.inr h
      · exact ih acc a ha

/-- Helper: the filter loop never grows past `k` once the accumulator is
below `k`. -/
theorem length_memoryFilterLoop_le (uid fid : String) (k : Nat)
    (thr : Option Int) (results : List (StoreDoc × Int)) :
    ∀ (acc : List MemoryHit), acc.length < k →
      (memoryFilterLoop uid fid k thr results acc).length ≤ k := by
  induction results with
  | nil =>
    intro acc h
    simpa [memoryFilterLoop] using le_of_lt h
  | cons p rest ih =>
    intro acc h
    obtain ⟨doc, score⟩ := p
    simp only [memoryFilterLoop]
    split
    · exact ih acc h
    · split
      · split
        case isTrue hlen =>
          simp only [List.length_append, List.length_singleton]
          omega
        case isFalse hlen =>
          refine ih _ ?_
          simp only [not_le, List.length_append, List.length_singleton] at hlen
          simpa using hlen
      · exact ih acc h

/-- C4: every memory returned by `search_relevant_memories` carries
metadata whose `user_id` and `family_id` equal (as strings) the requested
tenant ids; since the vector store is asked for `k * 3` results, the
returned list has at most `k` entries; and it is sorted by relevance
score in descending order.  A memory of another user or family is never
returned. -/
theorem c4_search_relevant_memories_tenant_scope
    (results : List (StoreDoc × Int)) (uid fid : String) (k : Nat)
    (thr : Option Int) (hres : results.length ≤ 3 * k) :
    (∀ m ∈ search_relevant_memories results uid fid k thr,
        m.meta_user_id = some uid ∧ m.meta_family_id = some fid)
    ∧ (search_relevant_memories results uid fid k thr).length ≤ k
    ∧ List.Pairwise (fun a b => b.score ≤ a.score)
        (search_relevant_memories results uid fid k thr) := by
  refine ⟨?_, ?_, ?_⟩
  · intro m hm
    rw [search_relevant_memories, mem_sortKeyDesc] at hm
    rcases mem_memoryFilterLoop uid fid k thr results [] m hm with h | h
    · simp at h
    · exact h
  · rw [search_relevant_memories, length_sortKeyDesc]
    cases k with
    | zero =>
      have : results = [] := List.eq_nil_of_length_eq_zero (by omega)
      subst this
      simp [memoryFilterLoop]
    | succ k =>
      exact length_memoryFilterLoop_le uid fid (k + 1) thr results []
        (by simp)
  · exact pairwise_sortKeyDesc (fun m : MemoryHit => m.score) _

/-- C4 witness: a concrete search over three raw results (two of them
belonging to other tenants) with `k = 1`. -/
theorem c4_search_relevant_memories_tenant_scope_witness :
    ([((⟨"likes soccer", some "u1", some "f1"⟩ : StoreDoc), (7 : Int)),
      (⟨"other user", some "u2", some "f1"⟩, 9),
      (⟨"other family", some "u1", some "f2"⟩, 8)].length ≤ 3 * 1)
    ∧ ((∀ m ∈ search_relevant_memories
          [((⟨"likes soccer", some "u1", some "f1"⟩ : StoreDoc), (7 : Int)),
           (⟨"other user", some "u2", some "f1"⟩, 9),
           (⟨"other family", some "u1", some "f2"⟩, 8)] "u1" "f1" 1 none,
          m.meta_user_id = some "u1" ∧ m.meta_family_id = some "f1")
      ∧ (search_relevant_memories
          [((⟨"likes soccer", some "u1", some "f1"⟩ : StoreDoc), (7 : Int)),
           (⟨"other user", some "u2", some "f1"⟩, 9),
           (⟨"other family", some "u1", some "f2"⟩, 8)] "u1" "f1" 1 none).length ≤ 1
      ∧ List.Pairwise (fun a b => b.score ≤ a.score)
          (search_relevant_memories
            [((⟨"likes soccer", some "u1", some "f1"⟩ : StoreDoc), (7 : Int)),
             (⟨"other user", some "u2", some "f1"⟩, 9),
             (⟨"other family", some "u1", some "f2"⟩, 8)] "u1" "f1" 1 none)) :=
  ⟨by decide,
   c4_search_relevant_memories_tenant_scope
     [((⟨"likes soccer", some "u1", some "f1"⟩ : StoreDoc), (7 : Int)),
      (⟨"other user", some "u2", some "f1"⟩, 9),
      (⟨"other family", some "u1", some "f2"⟩, 8)] "u1" "f1" 1 none (by decide)⟩

/-- C1: the conditional UPDATE of `update_extension_request_status` only
modifies the row whose id matches the request and whose stored status is
PENDING, exactly as the claim's first half says.  But the claim's
conclusion - that a later respond attempt surfaces HTTP 409 Conflict -
is false of the program: `screen_time.py` never imports `RequestStatus`,
so the pending check at line 357 raises `NameError` on every respond call
that passes the 404/403 checks (first attempt or later, with the state
untouched), and the module cannot even be loaded because line 383's
parameter annotation also needs `RequestStatus`; meanwhile the CRUD
function's own internal no-match 409 is swallowed by its blanket
`except Exception` and surfaces as 500.  No path of the program produces
the claimed 409. -/
theorem c1_extension_request_respond_name_error :
    (∀ (db : WellnessDB) (request : ExtRequest)
       (response_in : ExtRequestUpdate) (responder_id now : Nat)
       (i : Nat) (r : ExtRequest),
        db.ext_requests[i]? = some r →
        (r.reqStatus ≠ .pending ∨ r.id ≠ request.id) →
        ((update_extension_request_status db request response_in
            responder_id now).2).ext_requests[i]? = some r)
    ∧ (∀ (db : WellnessDB) (request : ExtRequest)
         (response_in : ExtRequestUpdate) (responder_id now : Nat),
        (∀ r ∈ db.ext_requests,
          ¬ (r.id = request.id ∧ r.reqStatus = RequestStatus.pending)) →
        update_extension_request_status db request response_in
            responder_id now
          = (.httpError 500 "Error updating request", db))
    ∧ resolvesName screenTimeApiModuleNames "RequestStatus" = false
    ∧ screenTimeModuleLoads = false
    ∧ (∀ (db : WellnessDB) (request_id : Nat)
         (response_in : ExtRequestUpdate) (current_user : UserRow)
         (now : Nat) (req : ExtRequest) (requesting_user : UserRow),
        db.ext_requests.find? (fun r => r.id == request_id) = some req →
        db.users.find? (fun u => u.id == req.user_id) = some requesting_user →
        requesting_user.family_id = current_user.family_id →
        respond_extension_request_endpoint db request_id response_in
            current_user now
          = (.pyExc (pyNameErrorMsg "RequestStatus"), db)) := by
  refine ⟨?_, ?_, rfl, rfl, ?_⟩
  · intro db request response_in responder_id now i r hi hr
    have hhit : (r.id == request.id && r.reqStatus == RequestStatus.pending)
        = false := by
      rcases hr with h | h
      · simp [beq_eq_false_iff_ne.mpr h]
      · simp [beq_eq_false_iff_ne.mpr h]
    simp only [update_extension_request_status]
    split
    · exact hi
    · simp [List.getElem?_map, hi, hhit]
      intro h1 h2
      simp [h1, h2] at hhit
  · intro db request response_in responder_id now h
    have hfil : db.ext_requests.filter
        (fun r => r.id == request.id && r.reqStatus == RequestStatus.pending)
        = [] := by
      rw [List.filter_eq_nil_iff]
      intro r hr
      have hnr := h r hr
      simp only [Bool.and_eq_true, beq_iff_eq, not_and]
      exact fun h1 h2 => hnr ⟨h1, h2⟩
    simp only [update_extension_request_status, hfil]
  · intro db request_id response_in current_user now req requesting_user
      hfind hfu hfam
    simp only [respond_extension_request_endpoint, hfind, hfu]
    rw [if_neg (by simp [hfam])]
    rw [if_neg (by decide)]

/-- C1 witness: in a database whose single request (id 1, by user 10 of
family 7) is PENDING, the conditional update for a request object with a
non-matching id (99) touches nothing and yields 500 (not 409), and a
parent of the same family responding to the pending request 1 receives
the `NameError` on `RequestStatus`, state unchanged. -/
theorem c1_extension_request_respond_name_error_witness :
    ((update_extension_request_status
        ⟨[⟨10, some 7, "child"⟩, ⟨2, some 7, "parent"⟩], [],
         [⟨1, 10, 5, 30, none, .pending, none, none, none, none, 0, 0⟩]⟩
        ⟨99, 10, 5, 30, none, .pending, none, none, none, none, 0, 0⟩
        ⟨.approved, some 10, none⟩ 2 100).2).ext_requests[0]?
      = some ⟨1, 10, 5, 30, none, .pending, none, none, none, none, 0, 0⟩
    ∧ update_extension_request_status
        ⟨[⟨10, some 7, "child"⟩, ⟨2, some 7, "parent"⟩], [],
         [⟨1, 10, 5, 30, none, .pending, none, none, none, none, 0, 0⟩]⟩
        ⟨99, 10, 5, 30, none, .pending, none, none, none, none, 0, 0⟩
        ⟨.approved, some 10, none⟩ 2 100
      = (.httpError 500 "Error updating request",
         ⟨[⟨10, some 7, "child"⟩, ⟨2, some 7, "parent"⟩], [],
          [⟨1, 10, 5, 30, none, .pending, none, none, none, none, 0, 0⟩]⟩)
    ∧ respond_extension_request_endpoint
        ⟨[⟨10, some 7, "child"⟩, ⟨2, some 7, "parent"⟩], [],
         [⟨1, 10, 5, 30, none, .pending, none, none, none, none, 0, 0⟩]⟩
        1 ⟨.approved, some 10, none⟩ ⟨2, some 7, "parent"⟩ 100
      = (.pyExc (pyNameErrorMsg "RequestStatus"),
         ⟨[⟨10, some 7, "child"⟩, ⟨2, some 7, "parent"⟩], [],
          [⟨1, 10, 5, 30, none, .pending, none, none, none, none, 0, 0⟩]⟩) :=
  ⟨c1_extension_request_respond_name_error.1
      ⟨[⟨10, some 7, "child"⟩, ⟨2, some 7, "parent"⟩], [],
       [⟨1, 10, 5, 30, none, .pending, none, none, none, none, 0, 0⟩]⟩
      ⟨99, 10, 5, 30, none, .pending, none, none, none, none, 0, 0⟩
      ⟨.approved, some 10, none⟩ 2 100 0
      ⟨1, 10, 5, 30, none, .pending, none, none, none, none, 0, 0⟩
      rfl (Or.inr (by decide)),
   c1_extension_request_respond_name_error.2.1
      ⟨[⟨10, some 7, "child"⟩, ⟨2, some 7, "parent"⟩], [],
       [⟨1, 10, 5, 30, none, .pending, none, none, none, none, 0, 0⟩]⟩
      ⟨99, 10, 5, 30, none, .pending, none, none, none, none, 0, 0⟩
      ⟨.approved, some 10, none⟩ 2 100 (by decide),
   c1_extension_request_respond_name_error.2.2.2.2
      ⟨[⟨10, some 7, "child"⟩, ⟨2, some 7, "parent"⟩], [],
       [⟨1, 10, 5, 30, none, .pending, none, none, none, none, 0, 0⟩]⟩
      1 ⟨.approved, some 10, none⟩ ⟨2, some 7, "parent"⟩ 100
      ⟨1, 10, 5, 30, none, .pending, none, none, none, none, 0, 0⟩
      ⟨10, some 7, "child"⟩ rfl rfl rfl⟩

/-- C10: for a caller whose (lower-cased) role string is not parent,
admin or caregiver, `get_extension_requests_multi` returns only requests
whose `user_id` is the caller's own id, and the result does not depend on
the `target_user_id` argument: two calls differing only in
`target_user_id` return the same list. -/
theorem c10_child_scope_extension_requests (db : WellnessDB)
    (current_user : UserRow) (t1 t2 : Option Nat)
    (statusFilter : Option RequestStatus) (limit : Nat)
    (hrole : is_parent_or_admin current_user.role = false) :
    (∀ r ∈ get_extension_requests_multi db current_user t1 statusFilter limit,
        r.user_id = current_user.id)
    ∧ get_extension_requests_multi db current_user t1 statusFilter limit
      = get_extension_requests_multi db current_user t2 statusFilter limit := by
  constructor
  · intro r hr
    unfold get_extension_requests_multi at hr
    cases hfam : current_user.family_id with
    | none =>
      rw [hfam] at hr
      simp at hr
    | some famId =>
      rw [hfam] at hr
      simp only [hrole, Bool.false_eq_true, if_false] at hr
      have hr' := List.mem_of_mem_take hr
      rw [mem_sortKeyDesc] at hr'
      cases statusFilter with
      | none =>
        have h := List.mem_filter.1 hr'
        exact beq_iff_eq.1 h.2
      | some st =>
        have h1 := List.mem_filter.1 hr'
        have h2 := List.mem_filter.1 h1.1
        exact beq_iff_eq.1 h2.2
  · unfold get_extension_requests_multi
    cases current_user.family_id with
    | none => rfl
    | some famId => simp [hrole]

/-- C10 witness: a child caller (user 5) gets only their own request,
identically for `target_user_id = 6` and `target_user_id = None`. -/
theorem c10_child_scope_extension_requests_witness :
    (∀ r ∈ get_extension_requests_multi
        ⟨[⟨5, some 7, "child"⟩, ⟨6, some 7, "child"⟩], [],
         [⟨1, 5, 3, 30, none, .pending, none, none, none, none, 2, 2⟩,
          ⟨2, 6, 3, 20, none, .pending, none, none, none, none, 1, 1⟩]⟩
        ⟨5, some 7, "child"⟩ (some 6) none 50,
        r.user_id = (⟨5, some 7, "child"⟩ : UserRow).id)
    ∧ get_extension_requests_multi
        ⟨[⟨5, some 7, "child"⟩, ⟨6, some 7, "child"⟩], [],
         [⟨1, 5, 3, 30, none, .pending, none, none, none, none, 2, 2⟩,
          ⟨2, 6, 3, 20, none, .pending, none, none, none, none, 1, 1⟩]⟩
        ⟨5, some 7, "child"⟩ (some 6) none 50
      = get_extension_requests_multi
        ⟨[⟨5, some 7, "child"⟩, ⟨6, some 7, "child"⟩], [],
         [⟨1, 5, 3, 30, none, .pending, none, none, none, none, 2, 2⟩,
          ⟨2, 6, 3, 20, none, .pending, none, none, none, none, 1, 1⟩]⟩
        ⟨5, some 7, "child"⟩ none none 50 :=
  c10_child_scope_extension_requests
    ⟨[⟨5, some 7, "child"⟩, ⟨6, some 7, "child"⟩], [],
     [⟨1, 5, 3, 30, none, .pending, none, none, none, none, 2, 2⟩,
      ⟨2, 6, 3, 20, none, .pending, none, none, none, none, 1, 1⟩]⟩
    ⟨5, some 7, "child"⟩ (some 6) none none 50 (by decide)

/-- C9: `user_crud.py` never imports `Enum`, `HTTPException` or `status`,
and `family_crud.py` never imports `HTTPException` or `status`, so the
claimed HTTPException 409 on unique-constraint violations is unreachable:
every call to `create_user` evaluates `isinstance(user_in.role, Enum)`
inside its `try` block, raising `NameError` before the INSERT can run (so
a unique violation cannot even occur there), and the `except` handler's
own `raise HTTPException(...)` raises `NameError` in turn; every
`update_user` call that sets a real column raises `NameError` on `Enum`
before any SQL; and every `create_family_with_owner` call - including the
join-code-collision path that the claim describes - ends in `NameError`
on `HTTPException` with the transaction rolled back.  No path produces an
HTTP 409, and no record is left committed. -/
theorem c9_crud_unique_violation_name_errors :
    (resolvesName userCrudModuleNames "Enum" = false
      ∧ resolvesName userCrudModuleNames "HTTPException" = false
      ∧ resolvesName userCrudModuleNames "status" = false
      ∧ resolvesName familyCrudModuleNames "HTTPException" = false
      ∧ resolvesName familyCrudModuleNames "status" = false)
    ∧ (∀ (db : AccountDB) (user_in : UserCreateIn),
        create_user db user_in
          = (.pyExc (pyNameErrorMsg "HTTPException"), db))
    ∧ (∀ (db : AccountDB) (user : UserRec),
        update_user db user ["family_id"]
          = (.pyExc (pyNameErrorMsg "Enum"), db))
    ∧ (∀ (db : AccountDB) (family_in : FamilyCreateIn) (owner : UserRec)
         (join_code : String),
        create_family_with_owner db family_in owner join_code
          = (.pyExc (pyNameErrorMsg "HTTPException"), db)) := by
  refine ⟨⟨rfl, rfl, rfl, rfl, rfl⟩, ?_, ?_, ?_⟩
  · intro db user_in
    rfl
  · intro db user
    rfl
  · intro db family_in owner join_code
    have hresF : resolvesName familyCrudModuleNames "HTTPException" = false := rfl
    have hresU : resolvesName userCrudModuleNames "Enum" = false := rfl
    have hmem : "family_id" ∈ dbUserColumns := by decide
    cases hfam : owner.family_id with
    | some fid => simp [create_family_with_owner, hfam, hresF]
    | none =>
      by_cases hcol : db.families.any (fun f => f.join_code == join_code) = true
      · simp [create_family_with_owner, hfam, hcol, hresF]
      · simp [create_family_with_owner, hfam, hcol, update_user, hresF,
          hresU, hmem]
